import Mathlib

/-
Verification of the shader-reflection-driven GPU resource binding system of
the vulkan-framework repository.  The definitions below are a shallow
embedding of the C++ sources: byte stores are functions from byte index to
byte value, Vulkan handles are modelled by small inductive types, and the
member functions of Shader, Buffer, DescriptorSetLayoutBuilder and Pipeline
are translated into pure Lean functions over explicit state.
-/

set_option autoImplicit false

namespace VulkanFramework

/-- A byte of host or GPU-visible memory (values are taken modulo nothing;
only equality of bytes matters for the properties below). -/
abbrev Byte := Nat

/-- A byte store: total map from byte index to byte value.  Models the
mapped memory of a buffer or the push-constant staging vector. -/
abbrev Mem := Nat → Byte

/-- The effect of std memcpy of the byte list `src` into the store `m` at
byte position `offset`.  Byte `offset + i` receives `src[i]`; all other
bytes keep their old value. -/
def writeBytes (m : Mem) (offset : Nat) (src : List Byte) : Mem :=
  fun p => if offset ≤ p ∧ p < offset + src.length then src.getD (p - offset) 0 else m p

/-- Read `n` bytes of the store `m` starting at `offset`. -/
def readBytes (m : Mem) (offset n : Nat) : List Byte :=
  (List.range n).map fun i => m (offset + i)

/-- The Vulkan descriptor types produced by SlangBindingTypeToVulkan in
Shader.cpp (VK_DESCRIPTOR_TYPE_*). -/
inductive VkDescriptorType where
  | sampler
  | combinedImageSampler
  | sampledImage
  | storageImage
  | uniformTexelBuffer
  | storageTexelBuffer
  | uniformBuffer
  | storageBuffer
  | inputAttachment
  | inlineUniformBlock
  | accelerationStructure
  | maxEnum
  deriving DecidableEq, Repr

/-- Shader::Binding (Shader.hpp lines 159-170): one named, addressable
shader parameter with its layout inside its backing store. -/
structure Binding where
  set : Nat := 0
  binding : Nat := 0
  offset : Nat := 0
  size : Nat := 0
  stride : Nat := 0
  arrayElementCount : Nat := 0
  type : VkDescriptorType := .maxEnum
  isPushConstant : Bool := false
  isVariableSize : Bool := false
  deriving DecidableEq, Repr

/-- The name-to-Binding table m_bindings, modelled as an association list
with unique keys (std::unordered_map keyed by the dotted path name). -/
abbrev BindingMap := List (String × Binding)

/-- Lookup in the binding table (m_bindings.find). -/
def mapFind? : BindingMap → String → Option Binding
  | [], _ => none
  | (k, v) :: rest, n => if k = n then some v else mapFind? rest n

/-- Insert-or-assign into the binding table (the m_bindings subscript
operator followed by assignment). -/
def mapAssign : BindingMap → String → Binding → BindingMap
  | [], n, b => [(n, b)]
  | (k, v) :: rest, n, b => if k = n then (k, b) :: rest else (k, v) :: mapAssign rest n b

/-- A host-mappable Vulkan buffer: its allocated byte size m_size and its
persistently mapped memory contents. -/
structure Buffer where
  size : Nat
  mem : Mem

/-- A buffer with no storage, used as lookup default for out-of-range
vector indexing (which the C++ never performs on the covered paths). -/
def emptyBuffer : Buffer := { size := 0, mem := fun _ => 0 }

/-- Buffer::Fill(data, size, offset) (Buffer.cpp lines 126-146): asserts
offset + size is at most m_size, then memcpy of `size` bytes of `data` into
the mapped memory at `offset`.  The assert is a precondition of the
theorems below; the copy itself is total. -/
def Buffer.fill (b : Buffer) (data : List Byte) (size offset : Nat) : Buffer :=
  { b with mem := writeBytes b.mem offset (data.take size) }

/-- Replace element `i` of a list by `f` applied to it; the list is
unchanged when `i` is out of range.  Models in-place mutation of one
element of a std::vector. -/
def listModify {α : Type} : List α → Nat → (α → α) → List α
  | [], _, _ => []
  | x :: xs, 0, f => f x :: xs
  | x :: xs, i + 1, f => x :: listModify xs i f

/-- Renderer::MAX_FRAMES_IN_FLIGHT (Renderer.hpp line 22). -/
def MAX_FRAMES_IN_FLIGHT : Nat := 2

/-- The mutable state of a Shader that the SetParameter family touches:
the binding table, the push-constant staging bytes m_pushConstantData, and
the per-frame uniform buffers m_uniformBuffers. -/
structure ShaderState where
  bindings : BindingMap
  pushConstantData : Mem
  uniformBuffers : List Buffer

/-- Shader::SetParameter(frameIndex, name, data) for a simple value
(Shader.hpp lines 218-239).  Returns the new state and whether a warning
was logged.  Unknown name warns and is a no-op; a push-constant binding
receives a memcpy of binding.size bytes into the staging store at
binding.offset; otherwise the frame's uniform buffer is filled at
(binding.offset, binding.size).  `data` is the byte image of the value. -/
def SetParameterSimple (s : ShaderState) (frameIndex : Nat) (name : String)
    (data : List Byte) : ShaderState × Bool :=
  match mapFind? s.bindings name with
  | none => (s, true)
  | some binding =>
    if binding.isPushConstant then
      ({ s with pushConstantData := writeBytes s.pushConstantData binding.offset (data.take binding.size) }, false)
    else
      let bufs := listModify s.uniformBuffers frameIndex (fun b => b.fill data binding.size binding.offset)
      ({ s with uniformBuffers := bufs }, false)

/-- Little-endian byte image of static_cast to int32_t applied to a bool
(0 or 1), the 4-byte normalized representation described in Shader.hpp
lines 199-205. -/
def int32BoolBytes (v : Bool) : List Byte :=
  if v then [1, 0, 0, 0] else [0, 0, 0, 0]

/-- Shader::SetParameter specialization for bool (Shader.hpp lines
200-205): the bool is first widened to an int32_t, then the simple-value
path runs. -/
def SetParameterBool (s : ShaderState) (frameIndex : Nat) (name : String)
    (data : Bool) : ShaderState × Bool :=
  SetParameterSimple s frameIndex name (int32BoolBytes data)

/-- The element-by-element loop of the vector SetParameter: for i from
`i0` upward, memcpy sizeofT bytes of element i at offset + i * stride.
Faithful rendering of the for loops in Shader.hpp lines 259-262 and
273-276 on the underlying byte store. -/
def stridedWrite (offset stride sizeofT : Nat) : Nat → List (List Byte) → Mem → Mem
  | _, [], m => m
  | i, e :: rest, m =>
    stridedWrite offset stride sizeofT (i + 1) rest
      (writeBytes m (offset + i * stride) (e.take sizeofT))

/-- Shader::SetParameter(frameIndex, name, data) for a std::vector value
(Shader.hpp lines 242-283).  `data` is the list of per-element byte
images, `sizeofT` is sizeof(T).  If binding.stride differs from sizeof(T)
each element is copied at offset + i * stride, otherwise binding.size
bytes of the contiguous array are copied at once. -/
def SetParameterVector (s : ShaderState) (frameIndex : Nat) (name : String)
    (data : List (List Byte)) (sizeofT : Nat) : ShaderState × Bool :=
  match mapFind? s.bindings name with
  | none => (s, true)
  | some binding =>
    if binding.isPushConstant then
      if binding.stride ≠ sizeofT then
        let pcd := stridedWrite binding.offset binding.stride sizeofT 0 data s.pushConstantData
        ({ s with pushConstantData := pcd }, false)
      else
        let pcd := writeBytes s.pushConstantData binding.offset (data.flatten.take binding.size)
        ({ s with pushConstantData := pcd }, false)
    else
      if binding.stride ≠ sizeofT then
        let bufs := listModify s.uniformBuffers frameIndex
          (fun b => { b with mem := stridedWrite binding.offset binding.stride sizeofT 0 data b.mem })
        ({ s with uniformBuffers := bufs }, false)
      else
        let bufs := listModify s.uniformBuffers frameIndex
          (fun b => b.fill data.flatten binding.size binding.offset)
        ({ s with uniformBuffers := bufs }, false)

/-- The payload of a vkUpdateDescriptorSets call issued by the resource
overloads of SetParameter. -/
inductive ResourcePayload where
  | image (imageId : Nat)
  | buffer (bufferId : Nat) (range : Nat)
  deriving DecidableEq, Repr

/-- One descriptor-table write issued by SetParameter: destination frame
slot, set index, binding slot, descriptor type and payload. -/
structure DescriptorWrite where
  frameIndex : Nat
  set : Nat
  dstBinding : Nat
  descriptorType : VkDescriptorType
  payload : ResourcePayload
  deriving DecidableEq, Repr

/-- Shader::SetParameter(frameIndex, name, Image*) (Shader.cpp lines
500-533).  Unknown name warns and is a no-op; a push-constant binding
warns and issues no write; otherwise a descriptor write with the
binding's recorded type is issued with no further kind validation. -/
def SetParameterImage (s : ShaderState) (frameIndex : Nat) (name : String)
    (imageId : Nat) : ShaderState × List DescriptorWrite × Bool :=
  match mapFind? s.bindings name with
  | none => (s, [], true)
  | some binding =>
    if binding.isPushConstant then
      (s, [], true)
    else
      (s, [{ frameIndex := frameIndex, set := binding.set, dstBinding := binding.binding,
             descriptorType := binding.type, payload := .image imageId }], false)

/-- Shader::SetParameter(frameIndex, name, Buffer*) (Shader.cpp lines
535-574).  Unknown name warns and is a no-op; a push-constant binding
warns; a binding whose type is not a storage buffer warns and issues no
write; otherwise a descriptor write is issued. -/
def SetParameterBufferRes (s : ShaderState) (frameIndex : Nat) (name : String)
    (bufferId bufferSize : Nat) : ShaderState × List DescriptorWrite × Bool :=
  match mapFind? s.bindings name with
  | none => (s, [], true)
  | some binding =>
    if binding.isPushConstant then
      (s, [], true)
    else
      if binding.type ≠ .storageBuffer then
        (s, [], true)
      else
        (s, [{ frameIndex := frameIndex, set := binding.set, dstBinding := binding.binding,
               descriptorType := binding.type, payload := .buffer bufferId bufferSize }], false)

/-- VkDescriptorSetLayoutBinding as filled in by
DescriptorSetLayoutBuilder::AddBinding (stage flags are set uniformly by
Build and carry no information for the properties below). -/
structure VkDescriptorSetLayoutBinding where
  binding : Nat
  descriptorType : VkDescriptorType
  descriptorCount : Nat
  deriving DecidableEq, Repr

/-- DescriptorSetLayoutBuilder (DescriptorSet.hpp): an accumulating list
of layout bindings for one descriptor set. -/
structure DescriptorSetLayoutBuilder where
  bindings : List VkDescriptorSetLayoutBinding
  deriving DecidableEq, Repr

/-- The builder with no bindings (default-constructed). -/
def emptyBuilder : DescriptorSetLayoutBuilder := { bindings := [] }

/-- DescriptorSetLayoutBuilder::AddBinding (DescriptorSet.cpp lines 5-13):
pushes one (binding, type, count) triple onto the list. -/
def DescriptorSetLayoutBuilder.AddBinding (b : DescriptorSetLayoutBuilder)
    (binding : Nat) (t : VkDescriptorType) (count : Nat) : DescriptorSetLayoutBuilder :=
  { b with bindings := b.bindings ++ [{ binding := binding, descriptorType := t, descriptorCount := count }] }

/-- The duplicate-slot scan of operator+= : walks the binding list with a
running set of seen slot indices and counts how many Log Error calls are
made (one per binding whose slot index was already seen). -/
def dupScan : List VkDescriptorSetLayoutBinding → List Nat → Nat → Nat
  | [], _, errs => errs
  | b :: rest, seen, errs =>
    if b.binding ∈ seen then dupScan rest (b.binding :: seen) (errs + 1)
    else dupScan rest (b.binding :: seen) errs

/-- DescriptorSetLayoutBuilder::operator+= (DescriptorSet.cpp lines
43-55): appends the other builder's bindings to this one's, then scans
the combined list for duplicate slot indices, logging an error for each
duplicate.  Returns the updated builder together with the number of
errors logged.  The duplicates themselves are kept in the list. -/
def DescriptorSetLayoutBuilder.combine (self other : DescriptorSetLayoutBuilder) :
    DescriptorSetLayoutBuilder × Nat :=
  let merged := self.bindings ++ other.bindings
  ({ bindings := merged }, dupScan merged [] 0)

/-- Number of descriptor-table entries a layout binding list holds for a
given slot index. -/
def slotCount (l : List VkDescriptorSetLayoutBinding) (slot : Nat) : Nat :=
  (l.filter fun b => b.binding = slot).length

/-- The merge loop of Pipeline::CreateDescriptors (Pipeline.cpp lines
109-116): every shader's array of four per-set builders is folded into a
pipeline-wide array of four builders with operator+=. -/
def mergeDescriptorLayoutBuilders (shaderBuilders : List (List DescriptorSetLayoutBuilder)) :
    List DescriptorSetLayoutBuilder :=
  shaderBuilders.foldl
    (fun acc sb => (List.range 4).map fun i => ((acc.getD i emptyBuilder).combine (sb.getD i emptyBuilder)).1)
    (List.replicate 4 emptyBuilder)

/-- The shader stages relevant to pipeline assembly
(VK_SHADER_STAGE_*). -/
inductive ShaderStage where
  | vertex
  | fragment
  | compute
  | raygenKHR
  | missKHR
  | closestHitKHR
  | otherStage
  deriving DecidableEq, Repr

/-- The per-stage data Pipeline::Setup consumes from a compiled Shader:
its stage flag and its four per-set descriptor layout builders. -/
structure ShaderDecl where
  stage : ShaderStage
  descriptorLayoutBuilders : List DescriptorSetLayoutBuilder
  deriving DecidableEq, Repr

/-- PipelineType (Pipeline.hpp lines 12-17). -/
inductive PipelineType where
  | GRAPHICS
  | COMPUTE
  | RAYTRACING
  deriving DecidableEq, Repr

/-- The part of PipelineCreateInfo that Pipeline::Setup inspects. -/
structure PipelineCreateInfo where
  type : PipelineType
  shaders : List ShaderDecl
  deriving DecidableEq, Repr

/-- The GPU objects pipeline construction allocates, in allocation
order. -/
inductive GpuObject where
  | descriptorSetLayout
  | descriptorSet
  | pipelineLayout
  | pipelineObject
  | sbtBuffer
  deriving DecidableEq, Repr

/-- The body of the ray-tracing stage-sorting loop (Pipeline.cpp lines
45-53): a raygen stage is stored in slot 0, a miss stage in slot 1, a
closest-hit stage in slot 2. -/
def assignShaderSlot (sl : List (Option ShaderDecl)) (sh : ShaderDecl) :
    List (Option ShaderDecl) :=
  let sl := if sh.stage = .raygenKHR then sl.set 0 (some sh) else sl
  let sl := if sh.stage = .missKHR then sl.set 1 (some sh) else sl
  if sh.stage = .closestHitKHR then sl.set 2 (some sh) else sl

/-- The stage-sorting switch of Pipeline::Setup (Pipeline.cpp lines
20-56): re-sorts the supplied shaders into their canonical slots, with
the asserts modelled as hard configuration errors.  Graphics pipelines
assert unconditionally; compute requires exactly one shader; ray tracing
requires exactly three and fills the canonical slots by stage flag. -/
def sortShaderSlots (ci : PipelineCreateInfo) : Except String (List (Option ShaderDecl)) :=
  match ci.type with
  | .GRAPHICS => .error "Graphics pipelines not yet supported"
  | .COMPUTE =>
    if ci.shaders.length = 1 then
      .ok [some (ci.shaders.getD 0 { stage := .otherStage, descriptorLayoutBuilders := [] })]
    else
      .error "compute pipeline expects exactly one shader"
  | .RAYTRACING =>
    if ci.shaders.length = 3 then
      .ok (ci.shaders.foldl assignShaderSlot [none, none, none])
    else
      .error "ray tracing pipeline expects exactly three shaders"

/-- Pipeline::Setup (Pipeline.cpp lines 15-90), tracking the GPU objects
allocated along the way.  After stage sorting, the loop of asserts on
lines 58-61 aborts when any canonical slot is unfilled; only then does
CreateDescriptors build one descriptor set layout per non-empty merged
builder and allocate one descriptor set per layout per frame in flight,
and the type-specific pipeline creation allocates the pipeline layout,
the pipeline object and, for ray tracing, the shader-binding-table
buffer. -/
def PipelineSetup (ci : PipelineCreateInfo) : List GpuObject × Except String Unit :=
  match sortShaderSlots ci with
  | .error e => ([], .error e)
  | .ok slots =>
    if slots.any fun o => o.isNone then
      ([], .error "Pipeline is missing some shaders")
    else
      let shaders := slots.reduceOption
      let merged := mergeDescriptorLayoutBuilders (shaders.map fun sh => sh.descriptorLayoutBuilders)
      let layouts := merged.filter fun b => ¬ b.bindings.isEmpty
      let layoutAllocs := layouts.map fun _ => GpuObject.descriptorSetLayout
      let setAllocs :=
        if layouts.length = 0 then []
        else List.replicate (MAX_FRAMES_IN_FLIGHT * layouts.length) GpuObject.descriptorSet
      let pipelineAllocs :=
        match ci.type with
        | .COMPUTE => [GpuObject.pipelineLayout, GpuObject.pipelineObject]
        | .RAYTRACING => [GpuObject.pipelineLayout, GpuObject.pipelineObject, GpuObject.sbtBuffer]
        | .GRAPHICS => [GpuObject.pipelineLayout, GpuObject.pipelineObject]
      (layoutAllocs ++ setAllocs ++ pipelineAllocs, .ok ())

mutual
/-- A slang uniform type layout as observed by Shader::ParseStruct: a
leaf (scalar, vector, matrix or array of uniform data, carrying its
uniform byte size, whether its kind is Array, and in that case its
reflected element stride) or a struct with named fields at intrinsic
byte offsets. -/
inductive TypeLayout where
  | leaf (size : Nat) (isArray : Bool) (elementStride : Nat)
  | struct (size : Nat) (fields : FieldList)

/-- The field list of a struct type layout: each field has a name, its
intrinsic byte offset inside the struct, and its own type layout. -/
inductive FieldList where
  | nil
  | cons (name : String) (offset : Nat) (ty : TypeLayout) (rest : FieldList)
end

/-- getSize(ParameterCategory Uniform) of a type layout. -/
def TypeLayout.uniformSize : TypeLayout → Nat
  | .leaf s _ _ => s
  | .struct s _ => s

/-- Whether getKind() of a type layout is Kind Struct. -/
def TypeLayout.isStruct : TypeLayout → Bool
  | .struct _ _ => true
  | _ => false

mutual
/-- Shader::ParseStruct (Shader.cpp lines 222-256).  `bindingSet` and
`bindingSlot` are the Offset argument's set and binding; `ubSize` is the
value of the member m_uniformBufferSize for the whole traversal (it is
only incremented after ParseStruct returns).  For every field of nonzero
uniform size the byte offset is computed as the field's intrinsic offset
plus the accumulated offset plus m_uniformBufferSize; struct fields
recurse passing that sum as the new accumulated offset, and leaf fields
are inserted into the binding table. -/
def ParseStruct (bindingSet bindingSlot ubSize : Nat) :
    TypeLayout → String → Nat → BindingMap → BindingMap
  | .leaf _ _ _, _, _, acc => acc
  | .struct _ fields, path, offset, acc =>
    ParseStructFields bindingSet bindingSlot ubSize fields path offset acc

/-- The field loop of Shader::ParseStruct. -/
def ParseStructFields (bindingSet bindingSlot ubSize : Nat) :
    FieldList → String → Nat → BindingMap → BindingMap
  | .nil, _, _, acc => acc
  | .cons n foffset fty rest, path, offset, acc =>
    let acc' :=
      if fty.uniformSize > 0 then
        let name := path ++ n
        let offs := foffset + offset + ubSize
        match fty with
        | .struct _ _ => ParseStruct bindingSet bindingSlot ubSize fty (name ++ ".") offs acc
        | .leaf sz isArr st =>
          mapAssign acc name
            { set := bindingSet, binding := bindingSlot, offset := offs, size := sz,
              stride := if isArr then st else 0, type := .uniformBuffer, isPushConstant := false }
      else acc
    ParseStructFields bindingSet bindingSlot ubSize rest path offset acc'
end

mutual
/-- A valid nested-struct uniform layout: every leaf has positive size,
and the fields of every struct lie at nondecreasing, pairwise disjoint
byte ranges that stay inside the struct's own uniform size. -/
def TypeLayout.wellFormed : TypeLayout → Bool
  | .leaf s _ _ => s > 0
  | .struct s fields => FieldList.wellFormedFrom s 0 fields

/-- Field list validity: each field starts at or after `lo`, ends within
the struct size `s`, is itself well formed, and the following fields
start after it ends. -/
def FieldList.wellFormedFrom (s lo : Nat) : FieldList → Bool
  | .nil => true
  | .cons _ off ty rest =>
    lo ≤ off && off + ty.uniformSize ≤ s && ty.wellFormed &&
      FieldList.wellFormedFrom s (off + ty.uniformSize) rest
end

/-- One ConstantBuffer sub-object range of a shader's reflected layout as
consumed by the uniform-data branch of Shader::GetLayout (Shader.cpp
lines 359-396): the destination descriptor set and binding taken from the
accumulated container offset, the dotted variable path (ending in a dot),
the container variable layout's uniform offset, and the element type
layout. -/
structure ConstantBufferDecl where
  descriptorSetIndex : Nat
  binding : Nat
  varPath : String
  containerOffset : Nat
  element : TypeLayout

/-- The reflection state the uniform-data branch of Shader::GetLayout
mutates: the binding table, the per-buffer info records
m_uniformBufferInfos as (set, binding, size, offset) tuples, the running
aggregate m_uniformBufferSize, and the AddBinding calls issued to the
per-set layout builders as (set, binding, type) triples. -/
structure ReflectState where
  bindings : BindingMap
  uniformBufferInfos : List (Nat × Nat × Nat × Nat)
  uniformBufferSize : Nat
  layoutAdds : List (Nat × Nat × VkDescriptorType)

/-- The ConstantBuffer case of Shader::GetLayout (Shader.cpp lines
380-393) for one sub-object range: when the element type has uniform
data, a uniform-buffer slot is added to the addressed set's builder, a
struct element is walked by ParseStruct with the current
m_uniformBufferSize, the buffer info record is appended with the current
aggregate as its offset, and the aggregate grows by the element size. -/
def processConstantBuffer (st : ReflectState) (cb : ConstantBufferDecl) : ReflectState :=
  if cb.element.uniformSize ≠ 0 then
    let adds := st.layoutAdds ++ [(cb.descriptorSetIndex, cb.binding, VkDescriptorType.uniformBuffer)]
    let bindings' :=
      if cb.element.isStruct then
        ParseStruct cb.descriptorSetIndex cb.binding st.uniformBufferSize cb.element cb.varPath
          cb.containerOffset st.bindings
      else st.bindings
    { bindings := bindings',
      uniformBufferInfos := st.uniformBufferInfos ++
        [(cb.descriptorSetIndex, cb.binding, cb.element.uniformSize, st.uniformBufferSize)],
      uniformBufferSize := st.uniformBufferSize + cb.element.uniformSize,
      layoutAdds := adds }
  else st

/-- The reflection walk over all ConstantBuffer sub-object ranges of one
shader, in declaration order, starting from the empty state (fresh
Shader members). -/
def reflectConstantBuffers (cbs : List ConstantBufferDecl) : ReflectState :=
  cbs.foldl processConstantBuffer
    { bindings := [], uniformBufferInfos := [], uniformBufferSize := 0, layoutAdds := [] }

/-- Validity of a whole reflected layout: every constant buffer's element
type is well formed and the container offset is zero (slang places the
element at the start of its own uniform buffer). -/
def validReflectedLayout (cbs : List ConstantBufferDecl) : Bool :=
  cbs.all fun cb => cb.element.wellFormed && cb.containerOffset = 0

/-- The slang binding types of Shader.cpp's switch statements. -/
inductive SlangBindingType where
  | parameterBlock
  | constantBuffer
  | existentialValue
  | pushConstant
  | inlineUniformData
  | sampler
  | combinedTextureSampler
  | texture
  | mutableTexture
  | typedBuffer
  | mutableTypedBuffer
  | rawBuffer
  | mutableRawBuffer
  | inputRenderTarget
  | rayTracingAccelerationStructure
  deriving DecidableEq, Repr

/-- SlangBindingTypeToVulkan (Shader.cpp lines 613-646). -/
def SlangBindingTypeToVulkan : SlangBindingType → VkDescriptorType
  | .sampler => .sampler
  | .combinedTextureSampler => .combinedImageSampler
  | .texture => .sampledImage
  | .mutableTexture => .storageImage
  | .typedBuffer => .uniformTexelBuffer
  | .mutableTypedBuffer => .storageTexelBuffer
  | .rawBuffer => .storageBuffer
  | .mutableRawBuffer => .storageBuffer
  | .inputRenderTarget => .inputAttachment
  | .inlineUniformData => .inlineUniformBlock
  | .rayTracingAccelerationStructure => .accelerationStructure
  | .constantBuffer => .uniformBuffer
  | _ => .maxEnum

/-- Shader::Offset (Shader.hpp lines 109-130): the explicit accumulator
of set, binding, push-constant-range and sub-element offsets. -/
structure SlangOffset where
  bindingSet : Nat
  binding : Nat
  pushConstantRange : Nat
  subelement : Nat
  deriving DecidableEq, Repr

/-- One descriptor range inside a binding range: its slang descriptor
type, its descriptor count, and its index offset inside the set. -/
structure DescriptorRange where
  rangeType : SlangBindingType
  count : Nat
  indexOffset : Nat
  deriving DecidableEq, Repr

/-- One binding range of a reflected type layout, with the leaf variable
name when getBindingRangeLeafVariable is non-null. -/
structure BindingRangeDecl where
  rangeType : SlangBindingType
  descriptorRanges : List DescriptorRange
  leafVariableName : Option String
  deriving DecidableEq, Repr

/-- path substr(0, length - 1): all but the last character (the whole
string stays empty when it is empty, since the wrapped count is clamped
to the length). -/
def dropLastChar (s : String) : String := s.dropRight 1

/-- The sub-object range types skipped by the first switch of the
binding-range loop (Shader.cpp lines 266-279): they are handled in the
separate sub-object pass. -/
def isSubObjectRangeType : SlangBindingType → Bool
  | .parameterBlock | .constantBuffer | .existentialValue | .pushConstant => true
  | _ => false

/-- The descriptor range types that do not manifest as Vulkan
descriptors, skipped by the second switch (Shader.cpp lines 298-306). -/
def isNonVulkanDescriptorType : SlangBindingType → Bool
  | .existentialValue | .inlineUniformData | .pushConstant => true
  | _ => false

/-- The body of the descriptor-range loop of Shader::GetLayout
(Shader.cpp lines 288-322): a skipped descriptor type leaves the
accumulator unchanged; otherwise a layout binding is added to the
addressed set's builder and a Binding is unconditionally inserted into
the name table, under the dotted path extended by the leaf variable's
name, or under the path with its trailing dot removed when the leaf
variable is null.  No log output is produced on this path. -/
def processDescriptorRange (isParameterBlock : Bool) (offset : SlangOffset) (path : String)
    (leafVariableName : Option String)
    (acc : List DescriptorSetLayoutBuilder × BindingMap) (dr : DescriptorRange) :
    List DescriptorSetLayoutBuilder × BindingMap :=
  if isNonVulkanDescriptorType dr.rangeType then acc
  else
    let vkType := SlangBindingTypeToVulkan dr.rangeType
    let dsi := if isParameterBlock then offset.subelement else offset.bindingSet
    let slot := offset.binding + dr.indexOffset
    let builders' := listModify acc.1 dsi fun b => b.AddBinding slot vkType dr.count
    let name :=
      match leafVariableName with
      | some n => path ++ n
      | none => dropLastChar path
    (builders', mapAssign acc.2 name
      { set := dsi, binding := slot, offset := 0, size := 0, stride := 0,
        arrayElementCount := 0, type := vkType,
        isPushConstant := false, isVariableSize := false })

/-- The binding-range loop of Shader::GetLayout (Shader.cpp lines
261-323).  Sub-object range types are skipped, ranges with no
descriptor ranges are skipped, and every remaining descriptor range is
processed by processDescriptorRange. -/
def processBindingRanges (isParameterBlock : Bool) (offset : SlangOffset) (path : String)
    (ranges : List BindingRangeDecl)
    (builders : List DescriptorSetLayoutBuilder) (bindings : BindingMap) :
    List DescriptorSetLayoutBuilder × BindingMap :=
  ranges.foldl
    (fun acc r =>
      if isSubObjectRangeType r.rangeType then acc
      else if r.descriptorRanges.length = 0 then acc
      else r.descriptorRanges.foldl
        (processDescriptorRange isParameterBlock offset path r.leafVariableName) acc)
    (builders, bindings)

theorem writeBytes_outside (m : Mem) (offset : Nat) (src : List Byte) (p : Nat)
    (h : p < offset ∨ offset + src.length ≤ p) : writeBytes m offset src p = m p := by
  unfold writeBytes
  rw [if_neg (by omega)]

theorem writeBytes_inside (m : Mem) (offset : Nat) (src : List Byte) (i : Nat)
    (h : i < src.length) : writeBytes m offset src (offset + i) = src.getD i 0 := by
  unfold writeBytes
  rw [if_pos (by omega)]
  congr 1
  omega

theorem map_getD_range (l : List Byte) :
    (List.range l.length).map (fun i => l.getD i 0) = l := by
  apply List.ext_getElem
  · simp
  · intro i h1 h2
    simp only [List.getElem_map, List.getElem_range]
    exact List.getD_eq_getElem l 0 h2

theorem readBytes_writeBytes (m : Mem) (offset : Nat) (src : List Byte) :
    readBytes (writeBytes m offset src) offset src.length = src := by
  unfold readBytes
  have h : ∀ i ∈ List.range src.length,
      writeBytes m offset src (offset + i) = src.getD i 0 := by
    intro i hi
    exact writeBytes_inside m offset src i (List.mem_range.mp hi)
  rw [List.map_congr_left h]
  exact map_getD_range src

theorem length_listModify {α : Type} (l : List α) (i : Nat) (f : α → α) :
    (listModify l i f).length = l.length := by
  induction l generalizing i with
  | nil => rfl
  | cons x xs ih => cases i <;> simp [listModify, ih]

theorem listModify_getD_self {α : Type} (l : List α) (i : Nat) (f : α → α) (d : α)
    (h : i < l.length) : (listModify l i f).getD i d = f (l.getD i d) := by
  induction l generalizing i with
  | nil => simp at h
  | cons x xs ih =>
    cases i with
    | zero => rfl
    | succ n =>
      simp only [listModify, List.getD_cons_succ]
      exact ih n (by simpa using h)

theorem listModify_getD_ne {α : Type} (l : List α) (i : Nat) (f : α → α) (k : Nat) (d : α)
    (h : k ≠ i) : (listModify l i f).getD k d = l.getD k d := by
  induction l generalizing i k with
  | nil => rfl
  | cons x xs ih =>
    cases i with
    | zero =>
      cases k with
      | zero => exact absurd rfl h
      | succ k => simp [listModify]
    | succ n =>
      cases k with
      | zero => rfl
      | succ k =>
        simp only [listModify, List.getD_cons_succ]
        exact ih n k (by omega)

theorem stridedWrite_cons (offset stride sizeofT i : Nat) (e : List Byte)
    (rest : List (List Byte)) (m : Mem) :
    stridedWrite offset stride sizeofT i (e :: rest) m =
      stridedWrite offset stride sizeofT (i + 1) rest
        (writeBytes m (offset + i * stride) (e.take sizeofT)) := rfl

theorem stridedWrite_outside (offset stride sizeofT : Nat) (hst : sizeofT ≤ stride)
    (data : List (List Byte)) :
    ∀ (i0 : Nat) (m : Mem) (p : Nat),
      p < offset + i0 * stride ∨ offset + (i0 + data.length) * stride ≤ p →
      stridedWrite offset stride sizeofT i0 data m p = m p := by
  induction data with
  | nil => intro i0 m p _; rfl
  | cons e rest ih =>
    intro i0 m p hp
    rw [stridedWrite_cons]
    have hmono : (i0 + 1) * stride ≤ (i0 + (e :: rest).length) * stride :=
      Nat.mul_le_mul_right _ (by simp)
    have hsucc : (i0 + 1) * stride = i0 * stride + stride := by ring
    have hstep : (i0 + 1 + rest.length) * stride = (i0 + (e :: rest).length) * stride := by
      congr 1
      simp
      omega
    have hside : p < offset + (i0 + 1) * stride ∨ offset + (i0 + 1 + rest.length) * stride ≤ p := by
      have h01 : i0 * stride ≤ (i0 + 1) * stride := Nat.mul_le_mul_right _ (by omega)
      rcases hp with hp | hp
      · left; omega
      · right; omega
    rw [ih (i0 + 1) _ p hside]
    apply writeBytes_outside
    have hlen : (e.take sizeofT).length ≤ sizeofT := by
      simp [List.length_take]
    rcases hp with hp | hp
    · left; omega
    · right
      have h01 : (i0 + 1) * stride ≤ (i0 + (e :: rest).length) * stride := hmono
      omega

theorem stridedWrite_read (offset stride sizeofT : Nat) (hst : sizeofT ≤ stride)
    (data : List (List Byte)) :
    ∀ (i0 i j : Nat) (m : Mem),
      i < data.length → (data.getD i []).length = sizeofT → j < sizeofT →
      stridedWrite offset stride sizeofT i0 data m (offset + (i0 + i) * stride + j) =
        (data.getD i []).getD j 0 := by
  induction data with
  | nil => intro i0 i j m hi _ _; simp at hi
  | cons e rest ih =>
    intro i0 i j m hi he hj
    rw [stridedWrite_cons]
    cases i with
    | zero =>
      have he' : e.length = sizeofT := by simpa using he
      have htake : e.take sizeofT = e := List.take_of_length_le (le_of_eq he')
      have hp : offset + (i0 + 0) * stride + j = (offset + i0 * stride) + j := by
        simp
      rw [stridedWrite_outside offset stride sizeofT hst rest (i0 + 1) _ _ ?out]
      case out =>
        left
        have : (i0 + 1) * stride = i0 * stride + stride := by ring
        omega
      rw [hp, htake, writeBytes_inside _ _ _ _ (by omega)]
      simp
    | succ i' =>
      have hidx : i0 + (i' + 1) = (i0 + 1) + i' := by omega
      rw [hidx]
      have := ih (i0 + 1) i' j
        (writeBytes m (offset + i0 * stride) (e.take sizeofT))
        (by simpa using hi) (by simpa using he) hj
      simpa using this

theorem setParameterSimple_uniform_eq (s : ShaderState) (f : Nat) (name : String)
    (b : Binding) (data : List Byte) (hfind : mapFind? s.bindings name = some b)
    (hpc : b.isPushConstant = false) :
    SetParameterSimple s f name data =
      ({ s with uniformBuffers :=
          listModify s.uniformBuffers f fun buf => buf.fill data b.size b.offset }, false) := by
  simp [SetParameterSimple, hfind, hpc]

theorem setParameterSimple_push_eq (s : ShaderState) (f : Nat) (name : String)
    (b : Binding) (data : List Byte) (hfind : mapFind? s.bindings name = some b)
    (hpc : b.isPushConstant = true) :
    SetParameterSimple s f name data =
      ({ s with pushConstantData :=
          writeBytes s.pushConstantData b.offset (data.take b.size) }, false) := by
  simp [SetParameterSimple, hfind, hpc]

theorem setParameterVector_uniform_contiguous_eq (s : ShaderState) (f : Nat) (name : String)
    (b : Binding) (data : List (List Byte)) (sizeofT : Nat)
    (hfind : mapFind? s.bindings name = some b) (hpc : b.isPushConstant = false)
    (hs : b.stride = sizeofT) :
    SetParameterVector s f name data sizeofT =
      ({ s with uniformBuffers :=
          listModify s.uniformBuffers f fun buf => buf.fill data.flatten b.size b.offset }, false) := by
  simp [SetParameterVector, hfind, hpc, hs]

theorem setParameterVector_uniform_strided_eq (s : ShaderState) (f : Nat) (name : String)
    (b : Binding) (data : List (List Byte)) (sizeofT : Nat)
    (hfind : mapFind? s.bindings name = some b) (hpc : b.isPushConstant = false)
    (hs : b.stride ≠ sizeofT) :
    SetParameterVector s f name data sizeofT =
      ({ s with uniformBuffers :=
          listModify s.uniformBuffers f fun buf =>
            { buf with mem := stridedWrite b.offset b.stride sizeofT 0 data buf.mem } }, false) := by
  simp [SetParameterVector, hfind, hpc, hs]

theorem setParameterVector_push_contiguous_eq (s : ShaderState) (f : Nat) (name : String)
    (b : Binding) (data : List (List Byte)) (sizeofT : Nat)
    (hfind : mapFind? s.bindings name = some b) (hpc : b.isPushConstant = true)
    (hs : b.stride = sizeofT) :
    SetParameterVector s f name data sizeofT =
      ({ s with pushConstantData :=
          writeBytes s.pushConstantData b.offset (data.flatten.take b.size) }, false) := by
  simp [SetParameterVector, hfind, hpc, hs]

theorem setParameterVector_push_strided_eq (s : ShaderState) (f : Nat) (name : String)
    (b : Binding) (data : List (List Byte)) (sizeofT : Nat)
    (hfind : mapFind? s.bindings name = some b) (hpc : b.isPushConstant = true)
    (hs : b.stride ≠ sizeofT) :
    SetParameterVector s f name data sizeofT =
      ({ s with pushConstantData :=
          stridedWrite b.offset b.stride sizeofT 0 data s.pushConstantData }, false) := by
  simp [SetParameterVector, hfind, hpc, hs]

theorem fill_readback (buf : Buffer) (data : List Byte) (n offset : Nat)
    (hlen : data.length = n) : readBytes (buf.fill data n offset).mem offset n = data := by
  unfold Buffer.fill
  have htake : data.take n = data := List.take_of_length_le (le_of_eq hlen)
  subst hlen
  rw [htake]
  exact readBytes_writeBytes buf.mem offset data

theorem flatten_length_of_uniform (data : List (List Byte)) (k : Nat)
    (h : ∀ e ∈ data, e.length = k) : data.flatten.length = data.length * k := by
  rw [List.length_flatten, List.map_congr_left h]
  simp [List.map_const]

theorem getD_length_of_uniform (data : List (List Byte)) (k i : Nat)
    (h : ∀ e ∈ data, e.length = k) (hi : i < data.length) :
    (data.getD i []).length = k := by
  rw [List.getD_eq_getElem data [] hi]
  exact h _ (List.getElem_mem hi)

/-- The uniform-buffer creation loop of the Shader constructor
(Shader.cpp lines 26-31): when the aggregate uniform footprint is
nonzero, one fresh host-mappable buffer of that size is created per
frame in flight; each has its own allocation, whose indeterminate
initial contents are supplied by initMem. -/
def mkUniformBuffers (uniformBufferSize : Nat) (initMem : Nat → Mem) : List Buffer :=
  if uniformBufferSize > 0 then
    (List.range MAX_FRAMES_IN_FLIGHT).map fun i => { size := uniformBufferSize, mem := initMem i }
  else []

/-- C3: for every binding name present in the binding table and every
value of each supported kind (scalar, array with matching stride, array
with padding stride, push constant, boolean), SetParameter followed by
reading the target backing store at the binding's offset and size yields
exactly the written bytes, with booleans first normalized to a 4-byte
integer.  Parts 1-3 cover scalar and boolean values, parts 4-7 cover
arrays for both backing stores; padded arrays are read back element by
element at offset + i * stride since the padding bytes between elements
are never written. -/
theorem c3_set_parameter_roundtrip (s : ShaderState) (frameIndex : Nat) (name : String)
    (b : Binding) (hfind : mapFind? s.bindings name = some b) :
    (∀ data : List Byte, b.isPushConstant = false → frameIndex < s.uniformBuffers.length →
      data.length = b.size →
      readBytes ((SetParameterSimple s frameIndex name data).1.uniformBuffers.getD frameIndex
        emptyBuffer).mem b.offset b.size = data) ∧
    (∀ data : List Byte, b.isPushConstant = true → data.length = b.size →
      readBytes (SetParameterSimple s frameIndex name data).1.pushConstantData
        b.offset b.size = data) ∧
    (∀ v : Bool, b.isPushConstant = false → frameIndex < s.uniformBuffers.length → b.size = 4 →
      readBytes ((SetParameterBool s frameIndex name v).1.uniformBuffers.getD frameIndex
        emptyBuffer).mem b.offset b.size = int32BoolBytes v) ∧
    (∀ (data : List (List Byte)) (sizeofT : Nat), b.isPushConstant = false →
      frameIndex < s.uniformBuffers.length → b.stride = sizeofT →
      (∀ e ∈ data, e.length = sizeofT) → b.size = data.length * sizeofT →
      readBytes ((SetParameterVector s frameIndex name data sizeofT).1.uniformBuffers.getD
        frameIndex emptyBuffer).mem b.offset b.size = data.flatten) ∧
    (∀ (data : List (List Byte)) (sizeofT i j : Nat), b.isPushConstant = false →
      frameIndex < s.uniformBuffers.length → b.stride ≠ sizeofT → sizeofT ≤ b.stride →
      (∀ e ∈ data, e.length = sizeofT) → i < data.length → j < sizeofT →
      ((SetParameterVector s frameIndex name data sizeofT).1.uniformBuffers.getD frameIndex
        emptyBuffer).mem (b.offset + i * b.stride + j) = (data.getD i []).getD j 0) ∧
    (∀ (data : List (List Byte)) (sizeofT : Nat), b.isPushConstant = true → b.stride = sizeofT →
      (∀ e ∈ data, e.length = sizeofT) → b.size = data.length * sizeofT →
      readBytes (SetParameterVector s frameIndex name data sizeofT).1.pushConstantData
        b.offset b.size = data.flatten) ∧
    (∀ (data : List (List Byte)) (sizeofT i j : Nat), b.isPushConstant = true →
      b.stride ≠ sizeofT → sizeofT ≤ b.stride → (∀ e ∈ data, e.length = sizeofT) →
      i < data.length → j < sizeofT →
      (SetParameterVector s frameIndex name data sizeofT).1.pushConstantData
        (b.offset + i * b.stride + j) = (data.getD i []).getD j 0) := by
  refine ⟨?_, ?_, ?_, ?_, ?_, ?_, ?_⟩
  · intro data hpc hf hlen
    rw [setParameterSimple_uniform_eq s frameIndex name b data hfind hpc]
    simp only
    rw [listModify_getD_self _ _ _ _ hf]
    exact fill_readback _ data b.size b.offset hlen
  · intro data hpc hlen
    rw [setParameterSimple_push_eq s frameIndex name b data hfind hpc]
    simp only
    have htake : data.take b.size = data := List.take_of_length_le (le_of_eq hlen)
    rw [htake, ← hlen]
    exact readBytes_writeBytes _ b.offset data
  · intro v hpc hf hsize
    unfold SetParameterBool
    rw [setParameterSimple_uniform_eq s frameIndex name b (int32BoolBytes v) hfind hpc]
    simp only
    rw [listModify_getD_self _ _ _ _ hf]
    apply fill_readback
    rw [hsize]
    cases v <;> rfl
  · intro data sizeofT hpc hf hs helem hsize
    rw [setParameterVector_uniform_contiguous_eq s frameIndex name b data sizeofT hfind hpc hs]
    simp only
    rw [listModify_getD_self _ _ _ _ hf]
    apply fill_readback
    rw [flatten_length_of_uniform data sizeofT helem, hsize]
  · intro data sizeofT i j hpc hf hs hst helem hi hj
    rw [setParameterVector_uniform_strided_eq s frameIndex name b data sizeofT hfind hpc hs]
    simp only
    rw [listModify_getD_self _ _ _ _ hf]
    have := stridedWrite_read b.offset b.stride sizeofT hst data 0 i j
      (s.uniformBuffers.getD frameIndex emptyBuffer).mem hi
      (getD_length_of_uniform data sizeofT i helem hi) hj
    simpa using this
  · intro data sizeofT hpc hs helem hsize
    rw [setParameterVector_push_contiguous_eq s frameIndex name b data sizeofT hfind hpc hs]
    simp only
    have hlen : data.flatten.length = b.size := by
      rw [flatten_length_of_uniform data sizeofT helem, hsize]
    have htake : data.flatten.take b.size = data.flatten :=
      List.take_of_length_le (le_of_eq hlen)
    rw [htake, ← hlen]
    exact readBytes_writeBytes _ b.offset data.flatten
  · intro data sizeofT i j hpc hs hst helem hi hj
    rw [setParameterVector_push_strided_eq s frameIndex name b data sizeofT hfind hpc hs]
    simp only
    have := stridedWrite_read b.offset b.stride sizeofT hst data 0 i j
      s.pushConstantData hi (getD_length_of_uniform data sizeofT i helem hi) hj
    simpa using this

/-- Fixture for the C3 witness: one uniform binding "a" at bytes 4-5 of
the frame-0 uniform buffer. -/
def sFixC3 : ShaderState :=
  { bindings := [("a", { offset := 4, size := 2, type := .uniformBuffer })],
    pushConstantData := fun _ => 0,
    uniformBuffers := [{ size := 8, mem := fun _ => 0 }, { size := 8, mem := fun _ => 0 }] }

theorem c3_set_parameter_roundtrip_witness :
    readBytes ((SetParameterSimple sFixC3 0 "a" [10, 20]).1.uniformBuffers.getD 0
      emptyBuffer).mem 4 2 = [10, 20] :=
  (c3_set_parameter_roundtrip sFixC3 0 "a"
      { offset := 4, size := 2, type := .uniformBuffer } (by decide)).1
    [10, 20] rfl (by decide) rfl

/-- C5: for distinct frame slots j and k, a SetParameter write of a
uniform (non-push-constant) parameter for frame slot j never changes
frame slot k's uniform backing buffer, and the Shader constructor
creates one separate uniform buffer per frame in flight, so the
per-frame stores never alias. -/
theorem c5_frame_isolation (s : ShaderState) (j k : Nat) (name : String) (b : Binding)
    (hfind : mapFind? s.bindings name = some b) (hpc : b.isPushConstant = false)
    (hj : j < MAX_FRAMES_IN_FLIGHT) (hk : k < MAX_FRAMES_IN_FLIGHT)
    (hlen : s.uniformBuffers.length = MAX_FRAMES_IN_FLIGHT) (hjk : j ≠ k) :
    (∀ data : List Byte,
      (SetParameterSimple s j name data).1.uniformBuffers.getD k emptyBuffer =
        s.uniformBuffers.getD k emptyBuffer) ∧
    (∀ (data : List (List Byte)) (sizeofT : Nat),
      (SetParameterVector s j name data sizeofT).1.uniformBuffers.getD k emptyBuffer =
        s.uniformBuffers.getD k emptyBuffer) ∧
    (∀ (ubs : Nat) (initMem : Nat → Mem), 0 < ubs →
      (mkUniformBuffers ubs initMem).length = MAX_FRAMES_IN_FLIGHT) := by
  refine ⟨?_, ?_, ?_⟩
  · intro data
    rw [setParameterSimple_uniform_eq s j name b data hfind hpc]
    exact listModify_getD_ne _ _ _ _ _ (Ne.symm hjk)
  · intro data sizeofT
    by_cases hs : b.stride = sizeofT
    · rw [setParameterVector_uniform_contiguous_eq s j name b data sizeofT hfind hpc hs]
      exact listModify_getD_ne _ _ _ _ _ (Ne.symm hjk)
    · rw [setParameterVector_uniform_strided_eq s j name b data sizeofT hfind hpc hs]
      exact listModify_getD_ne _ _ _ _ _ (Ne.symm hjk)
  · intro ubs initMem hubs
    simp [mkUniformBuffers, hubs]

/-- Fixture for the C5 witness: same shape as the C3 fixture but with
recognizable bytes in slot 1. -/
def sFixC5 : ShaderState :=
  { bindings := [("a", { offset := 0, size := 4, type := .uniformBuffer })],
    pushConstantData := fun _ => 0,
    uniformBuffers := [{ size := 4, mem := fun _ => 0 }, { size := 4, mem := fun _ => 9 }] }

theorem c5_frame_isolation_witness :
    (SetParameterSimple sFixC5 0 "a" [1, 2, 3, 4]).1.uniformBuffers.getD 1 emptyBuffer =
      sFixC5.uniformBuffers.getD 1 emptyBuffer :=
  (c5_frame_isolation sFixC5 0 1 "a" { offset := 0, size := 4, type := .uniformBuffer }
      (by decide) rfl (by decide) (by decide) rfl (by decide)).1 [1, 2, 3, 4]

/-- C8: a SetParameter call of any overload whose name is not in the
binding table logs a warning and is a no-op: the state (host memory,
uniform buffers, push-constant staging, binding table) is returned
unchanged and no descriptor write is issued. -/
theorem c8_unknown_name_noop (s : ShaderState) (frameIndex : Nat) (name : String)
    (h : mapFind? s.bindings name = none) :
    (∀ data : List Byte, SetParameterSimple s frameIndex name data = (s, true)) ∧
    (∀ v : Bool, SetParameterBool s frameIndex name v = (s, true)) ∧
    (∀ (data : List (List Byte)) (sizeofT : Nat),
      SetParameterVector s frameIndex name data sizeofT = (s, true)) ∧
    (∀ imageId : Nat, SetParameterImage s frameIndex name imageId = (s, [], true)) ∧
    (∀ bufferId bufferSize : Nat,
      SetParameterBufferRes s frameIndex name bufferId bufferSize = (s, [], true)) := by
  refine ⟨?_, ?_, ?_, ?_, ?_⟩ <;> intros <;>
    simp [SetParameterSimple, SetParameterBool, SetParameterVector, SetParameterImage,
      SetParameterBufferRes, h]

/-- Fixture for the C8 witness: a state whose binding table does not
contain the name "missing". -/
def sFixC8 : ShaderState :=
  { bindings := [("known", { offset := 0, size := 4, type := .uniformBuffer })],
    pushConstantData := fun _ => 0,
    uniformBuffers := [{ size := 4, mem := fun _ => 0 }] }

theorem c8_unknown_name_noop_witness :
    SetParameterSimple sFixC8 0 "missing" [7] = (sFixC8, true) ∧
    SetParameterImage sFixC8 0 "missing" 3 = (sFixC8, [], true) :=
  ⟨(c8_unknown_name_noop sFixC8 0 "missing" (by decide)).1 [7],
   (c8_unknown_name_noop sFixC8 0 "missing" (by decide)).2.2.2.1 3⟩

/-- C4: for an array-valued SetParameter call targeting a uniform-buffer
binding, the update is one contiguous copy of the whole array at the
binding's offset when the binding's stride equals sizeof(T), and
otherwise each element i is copied individually to byte position
offset + i * stride: element bytes land exactly there and every byte
outside the strided span is untouched. -/
theorem c4_vector_update_dispatch (s : ShaderState) (frameIndex : Nat) (name : String)
    (b : Binding) (data : List (List Byte)) (sizeofT : Nat)
    (hfind : mapFind? s.bindings name = some b) (hpc : b.isPushConstant = false)
    (hf : frameIndex < s.uniformBuffers.length) :
    (b.stride = sizeofT →
      (SetParameterVector s frameIndex name data sizeofT).1.uniformBuffers.getD frameIndex
        emptyBuffer =
      (s.uniformBuffers.getD frameIndex emptyBuffer).fill data.flatten b.size b.offset) ∧
    (b.stride ≠ sizeofT → sizeofT ≤ b.stride →
      (∀ i j : Nat, i < data.length → (∀ e ∈ data, e.length = sizeofT) → j < sizeofT →
        ((SetParameterVector s frameIndex name data sizeofT).1.uniformBuffers.getD frameIndex
          emptyBuffer).mem (b.offset + i * b.stride + j) = (data.getD i []).getD j 0) ∧
      (∀ p : Nat, p < b.offset ∨ b.offset + data.length * b.stride ≤ p →
        ((SetParameterVector s frameIndex name data sizeofT).1.uniformBuffers.getD frameIndex
          emptyBuffer).mem p = (s.uniformBuffers.getD frameIndex emptyBuffer).mem p)) := by
  constructor
  · intro hs
    rw [setParameterVector_uniform_contiguous_eq s frameIndex name b data sizeofT hfind hpc hs]
    simp only
    rw [listModify_getD_self _ _ _ _ hf]
  · intro hs hst
    constructor
    · intro i j hi helem hj
      rw [setParameterVector_uniform_strided_eq s frameIndex name b data sizeofT hfind hpc hs]
      simp only
      rw [listModify_getD_self _ _ _ _ hf]
      have := stridedWrite_read b.offset b.stride sizeofT hst data 0 i j
        (s.uniformBuffers.getD frameIndex emptyBuffer).mem hi
        (getD_length_of_uniform data sizeofT i helem hi) hj
      simpa using this
    · intro p hp
      rw [setParameterVector_uniform_strided_eq s frameIndex name b data sizeofT hfind hpc hs]
      simp only
      rw [listModify_getD_self _ _ _ _ hf]
      apply stridedWrite_outside b.offset b.stride sizeofT hst data 0
      simpa using hp

/-- Fixture for the C4 witness: a uniform array binding of two elements
with stride 8 and element size 4. -/
def sFixC4 : ShaderState :=
  { bindings := [("arr", { offset := 0, size := 16, stride := 8, type := .uniformBuffer })],
    pushConstantData := fun _ => 0,
    uniformBuffers := [{ size := 16, mem := fun _ => 0 }] }

theorem c4_vector_update_dispatch_witness :
    ((SetParameterVector sFixC4 0 "arr" [[1, 2, 3, 4], [5, 6, 7, 8]] 4).1.uniformBuffers.getD 0
      emptyBuffer).mem 10 = 7 :=
  ((c4_vector_update_dispatch sFixC4 0 "arr"
      { offset := 0, size := 16, stride := 8, type := .uniformBuffer }
      [[1, 2, 3, 4], [5, 6, 7, 8]] 4 (by decide) rfl (by decide)).2
    (by decide) (by decide)).1 1 2 (by decide) (by decide) (by decide)

/-- C10: a SetParameter call on a known scalar, array, or push-constant
binding modifies only the written byte range of the single backing store
selected by the binding's isPushConstant flag and the frame slot: for a
uniform write the binding table, the push-constant staging and every
other frame slot's buffer are untouched and the target buffer changes
only inside the written span (and keeps its size); for a push-constant
write the binding table and all uniform buffers are untouched and the
staging changes only inside the binding's byte range.  The claim's
precondition that the write stays within the store (the Buffer Fill
assert) is carried as a hypothesis. -/
theorem c10_write_locality (s : ShaderState) (frameIndex : Nat) (name : String) (b : Binding)
    (hfind : mapFind? s.bindings name = some b) :
    (∀ data : List Byte, b.isPushConstant = false →
      b.offset + b.size ≤ (s.uniformBuffers.getD frameIndex emptyBuffer).size →
      (SetParameterSimple s frameIndex name data).1.bindings = s.bindings ∧
      (SetParameterSimple s frameIndex name data).1.pushConstantData = s.pushConstantData ∧
      (∀ k : Nat, k ≠ frameIndex →
        (SetParameterSimple s frameIndex name data).1.uniformBuffers.getD k emptyBuffer =
          s.uniformBuffers.getD k emptyBuffer) ∧
      (frameIndex < s.uniformBuffers.length →
        ((SetParameterSimple s frameIndex name data).1.uniformBuffers.getD frameIndex
          emptyBuffer).size = (s.uniformBuffers.getD frameIndex emptyBuffer).size ∧
        (∀ p : Nat, p < b.offset ∨ b.offset + b.size ≤ p →
          ((SetParameterSimple s frameIndex name data).1.uniformBuffers.getD frameIndex
            emptyBuffer).mem p = (s.uniformBuffers.getD frameIndex emptyBuffer).mem p))) ∧
    (∀ data : List Byte, b.isPushConstant = true →
      (SetParameterSimple s frameIndex name data).1.bindings = s.bindings ∧
      (SetParameterSimple s frameIndex name data).1.uniformBuffers = s.uniformBuffers ∧
      (∀ p : Nat, p < b.offset ∨ b.offset + b.size ≤ p →
        (SetParameterSimple s frameIndex name data).1.pushConstantData p =
          s.pushConstantData p)) ∧
    (∀ (data : List (List Byte)) (sizeofT : Nat), b.isPushConstant = false →
      (SetParameterVector s frameIndex name data sizeofT).1.bindings = s.bindings ∧
      (SetParameterVector s frameIndex name data sizeofT).1.pushConstantData =
        s.pushConstantData ∧
      (∀ k : Nat, k ≠ frameIndex →
        (SetParameterVector s frameIndex name data sizeofT).1.uniformBuffers.getD k
          emptyBuffer = s.uniformBuffers.getD k emptyBuffer) ∧
      (frameIndex < s.uniformBuffers.length → b.stride = sizeofT →
        ∀ p : Nat, p < b.offset ∨ b.offset + b.size ≤ p →
          ((SetParameterVector s frameIndex name data sizeofT).1.uniformBuffers.getD frameIndex
            emptyBuffer).mem p = (s.uniformBuffers.getD frameIndex emptyBuffer).mem p) ∧
      (frameIndex < s.uniformBuffers.length → b.stride ≠ sizeofT → sizeofT ≤ b.stride →
        ∀ p : Nat, p < b.offset ∨ b.offset + data.length * b.stride ≤ p →
          ((SetParameterVector s frameIndex name data sizeofT).1.uniformBuffers.getD frameIndex
            emptyBuffer).mem p = (s.uniformBuffers.getD frameIndex emptyBuffer).mem p)) := by
  refine ⟨?_, ?_, ?_⟩
  · intro data hpc _
    rw [setParameterSimple_uniform_eq s frameIndex name b data hfind hpc]
    refine ⟨rfl, rfl, ?_, ?_⟩
    · intro k hk
      exact listModify_getD_ne _ _ _ _ _ hk
    · intro hf
      rw [listModify_getD_self _ _ _ _ hf]
      refine ⟨rfl, ?_⟩
      intro p hp
      apply writeBytes_outside
      have : (data.take b.size).length ≤ b.size := by simp [List.length_take]
      omega
  · intro data hpc
    rw [setParameterSimple_push_eq s frameIndex name b data hfind hpc]
    refine ⟨rfl, rfl, ?_⟩
    intro p hp
    apply writeBytes_outside
    have : (data.take b.size).length ≤ b.size := by simp [List.length_take]
    omega
  · intro data sizeofT hpc
    by_cases hs : b.stride = sizeofT
    · rw [setParameterVector_uniform_contiguous_eq s frameIndex name b data sizeofT hfind hpc hs]
      refine ⟨rfl, rfl, ?_, ?_, ?_⟩
      · intro k hk
        exact listModify_getD_ne _ _ _ _ _ hk
      · intro hf _ p hp
        rw [listModify_getD_self _ _ _ _ hf]
        apply writeBytes_outside
        have : (data.flatten.take b.size).length ≤ b.size := by simp [List.length_take]
        omega
      · intro _ hcontra
        exact absurd hs hcontra
    · rw [setParameterVector_uniform_strided_eq s frameIndex name b data sizeofT hfind hpc hs]
      refine ⟨rfl, rfl, ?_, ?_, ?_⟩
      · intro k hk
        exact listModify_getD_ne _ _ _ _ _ hk
      · intro _ hcontra
        exact absurd hcontra hs
      · intro hf _ hst p hp
        rw [listModify_getD_self _ _ _ _ hf]
        apply stridedWrite_outside b.offset b.stride sizeofT hst data 0
        simpa using hp

/-- Fixture for the C10 witness: one uniform binding at bytes 2-5 of a
frame-0 buffer holding the value 9 everywhere. -/
def sFixC10 : ShaderState :=
  { bindings := [("v", { offset := 2, size := 4, type := .uniformBuffer })],
    pushConstantData := fun _ => 0,
    uniformBuffers := [{ size := 8, mem := fun _ => 9 }] }

theorem c10_write_locality_witness :
    ((SetParameterSimple sFixC10 0 "v" [1, 2, 3, 4]).1.uniformBuffers.getD 0
      emptyBuffer).mem 7 = (sFixC10.uniformBuffers.getD 0 emptyBuffer).mem 7 :=
  (((c10_write_locality sFixC10 0 "v" { offset := 2, size := 4, type := .uniformBuffer }
      (by decide)).1 [1, 2, 3, 4] rfl (by decide)).2.2.2 (by decide)).2 7 (by decide)

/-- Fixture for the C6 counterexample: a non-push-constant binding whose
descriptor type is a uniform buffer, i.e. not an image slot. -/
def sFixC6 : ShaderState :=
  { bindings := [("tex", { set := 0, binding := 2, type := .uniformBuffer })],
    pushConstantData := fun _ => 0,
    uniformBuffers := [] }

/-- C6 counterexample: binding an image to a non-image (uniform-buffer)
slot is not rejected: the call issues one descriptor-table update with
the slot's recorded type and logs no warning, contradicting the claim
that every kind mismatch warns and performs no update. -/
theorem c6_image_kind_unchecked_counterexample :
    (SetParameterImage sFixC6 0 "tex" 7).2.1.length = 1 ∧
    (SetParameterImage sFixC6 0 "tex" 7).2.2 = false := by
  decide

/-- C6 amended: image and buffer handles written to a push-constant slot
warn and issue no descriptor update and no state change, and a buffer
handle written to a slot that is not a storage buffer warns and issues
no update; but an image handle written to any non-push-constant slot is
not kind-checked: a descriptor write with the slot's recorded type is
issued with no warning. -/
theorem c6_resource_mismatch_behavior (s : ShaderState) (frameIndex : Nat) (name : String)
    (b : Binding) (hfind : mapFind? s.bindings name = some b) :
    (b.isPushConstant = true →
      (∀ imageId : Nat, SetParameterImage s frameIndex name imageId = (s, [], true)) ∧
      (∀ bufferId bufferSize : Nat,
        SetParameterBufferRes s frameIndex name bufferId bufferSize = (s, [], true))) ∧
    (b.isPushConstant = false → b.type ≠ .storageBuffer →
      ∀ bufferId bufferSize : Nat,
        SetParameterBufferRes s frameIndex name bufferId bufferSize = (s, [], true)) ∧
    (b.isPushConstant = false →
      ∀ imageId : Nat, SetParameterImage s frameIndex name imageId =
        (s, [{ frameIndex := frameIndex, set := b.set, dstBinding := b.binding,
               descriptorType := b.type, payload := .image imageId }], false)) := by
  refine ⟨?_, ?_, ?_⟩
  · intro hpc
    constructor <;> intros <;> simp [SetParameterImage, SetParameterBufferRes, hfind, hpc]
  · intro hpc htype bufferId bufferSize
    simp [SetParameterBufferRes, hfind, hpc, htype]
  · intro hpc imageId
    simp [SetParameterImage, hfind, hpc]

/-- Fixture for the C6 witness: a push-constant binding named "pc". -/
def sFixC6w : ShaderState :=
  { bindings := [("pc", { offset := 0, size := 4, isPushConstant := true })],
    pushConstantData := fun _ => 0,
    uniformBuffers := [] }

theorem c6_resource_mismatch_behavior_witness :
    SetParameterImage sFixC6w 0 "pc" 5 = (sFixC6w, [], true) :=
  ((c6_resource_mismatch_behavior sFixC6w 0 "pc"
      { offset := 0, size := 4, isPushConstant := true } (by decide)).1 rfl).1 5

/-- The layout binding entry used by the C2 fixtures: slot 0, uniform
buffer, descriptor count 1. -/
def entryFixC2 : VkDescriptorSetLayoutBinding :=
  { binding := 0, descriptorType := .uniformBuffer, descriptorCount := 1 }

/-- A shader-side builder array for set 0 holding exactly the C2 fixture
entry. -/
def bFixC2 : DescriptorSetLayoutBuilder := emptyBuilder.AddBinding 0 .uniformBuffer 1

/-- C2 counterexample: merging two shader stages that both declare slot 0
of set 0 with identical type and count yields a merged set-0 layout that
holds two descriptor-table entries for that slot, not one. -/
theorem c2_merge_duplicate_counterexample :
    slotCount ((mergeDescriptorLayoutBuilders
      [[bFixC2, emptyBuilder, emptyBuilder, emptyBuilder],
       [bFixC2, emptyBuilder, emptyBuilder, emptyBuilder]]).getD 0 emptyBuilder).bindings 0 = 2 ∧
    ¬ slotCount ((mergeDescriptorLayoutBuilders
      [[bFixC2, emptyBuilder, emptyBuilder, emptyBuilder],
       [bFixC2, emptyBuilder, emptyBuilder, emptyBuilder]]).getD 0 emptyBuilder).bindings 0 = 1 := by
  decide

/-- C2 amended: merging two per-stage builders that each declare one
binding at the same slot does not deduplicate: operator+= appends the
second declaration, so the combined builder holds two descriptor-table
entries for that slot, and exactly one duplicate-slot error is
logged. -/
theorem c2_merge_appends_duplicates (x y : DescriptorSetLayoutBuilder)
    (bx byb : VkDescriptorSetLayoutBinding) (slot : Nat)
    (hx : x.bindings = [bx]) (hy : y.bindings = [byb])
    (hbx : bx.binding = slot) (hby : byb.binding = slot) :
    (x.combine y).1.bindings = [bx, byb] ∧
    slotCount (x.combine y).1.bindings slot = 2 ∧
    (x.combine y).2 = 1 := by
  refine ⟨?_, ?_, ?_⟩
  · simp [DescriptorSetLayoutBuilder.combine, hx, hy]
  · simp [DescriptorSetLayoutBuilder.combine, slotCount, hx, hy, hbx, hby]
  · simp [DescriptorSetLayoutBuilder.combine, dupScan, hx, hy, hbx, hby]

theorem c2_merge_appends_duplicates_witness :
    (bFixC2.combine bFixC2).1.bindings = [entryFixC2, entryFixC2] ∧
    slotCount (bFixC2.combine bFixC2).1.bindings 0 = 2 ∧
    (bFixC2.combine bFixC2).2 = 1 :=
  c2_merge_appends_duplicates bFixC2 bFixC2 entryFixC2 entryFixC2 0 rfl rfl rfl rfl

theorem assignShaderSlot_getElem?_two (sl : List (Option ShaderDecl)) (sh : ShaderDecl)
    (h : sh.stage ≠ .closestHitKHR) : (assignShaderSlot sl sh)[2]? = sl[2]? := by
  unfold assignShaderSlot
  by_cases h0 : sh.stage = .raygenKHR <;> by_cases h1 : sh.stage = .missKHR <;>
    simp [h0, h1, h, List.getElem?_set_ne]

theorem foldl_assign_third_none (shaders : List ShaderDecl)
    (h : ∀ sh ∈ shaders, sh.stage ≠ .closestHitKHR) :
    ∀ sl : List (Option ShaderDecl), sl[2]? = some none →
      (shaders.foldl assignShaderSlot sl)[2]? = some none := by
  induction shaders with
  | nil => intro sl hsl; simpa using hsl
  | cons sh rest ih =>
    intro sl hsl
    simp only [List.foldl_cons]
    apply ih (fun s hs => h s (List.mem_cons_of_mem _ hs))
    rw [assignShaderSlot_getElem?_two sl sh (h sh (List.mem_cons_self _ _))]
    exact hsl

/-- C7: assembling a ray-tracing pipeline whose shader list lacks a
closest-hit stage fails fast with a configuration error before any GPU
object is allocated: Pipeline Setup returns an error and an empty
allocation list. -/
theorem c7_raytracing_missing_closest_hit_fails (ci : PipelineCreateInfo)
    (htype : ci.type = .RAYTRACING)
    (h : ∀ sh ∈ ci.shaders, sh.stage ≠ .closestHitKHR) :
    (PipelineSetup ci).1 = [] ∧ ∃ e, (PipelineSetup ci).2 = Except.error e := by
  by_cases hlen : ci.shaders.length = 3
  · have hslots : sortShaderSlots ci =
        .ok (ci.shaders.foldl assignShaderSlot [none, none, none]) := by
      unfold sortShaderSlots
      rw [htype]
      simp [hlen]
    have h2 : (ci.shaders.foldl assignShaderSlot [none, none, none])[2]? = some none :=
      foldl_assign_third_none ci.shaders h [none, none, none] rfl
    have hmem : (none : Option ShaderDecl) ∈
        ci.shaders.foldl assignShaderSlot [none, none, none] := List.getElem?_mem h2
    have hany : (ci.shaders.foldl assignShaderSlot [none, none, none]).any
        (fun o => o.isNone) = true := by
      rw [List.any_eq_true]
      exact ⟨none, hmem, rfl⟩
    unfold PipelineSetup
    rw [hslots]
    simp [hany]
  · have hslots : sortShaderSlots ci =
        .error "ray tracing pipeline expects exactly three shaders" := by
      unfold sortShaderSlots
      rw [htype]
      simp [hlen]
    unfold PipelineSetup
    rw [hslots]
    simp

/-- Fixture for the C7 witness: a ray-tracing pipeline request with a
raygen stage and two miss stages but no closest-hit stage. -/
def ciFixC7 : PipelineCreateInfo :=
  { type := .RAYTRACING,
    shaders := [{ stage := .raygenKHR, descriptorLayoutBuilders := [] },
                { stage := .missKHR, descriptorLayoutBuilders := [] },
                { stage := .missKHR, descriptorLayoutBuilders := [] }] }

theorem c7_raytracing_missing_closest_hit_fails_witness :
    (PipelineSetup ciFixC7).1 = [] ∧ ∃ e, (PipelineSetup ciFixC7).2 = Except.error e :=
  c7_raytracing_missing_closest_hit_fails ciFixC7 rfl (by decide)

theorem mapFind?_mapAssign_self (m : BindingMap) (k : String) (b : Binding) :
    mapFind? (mapAssign m k b) k = some b := by
  induction m with
  | nil => simp [mapAssign, mapFind?]
  | cons kv rest ih =>
    by_cases hk : kv.1 = k
    · simp [mapAssign, mapFind?, hk]
    · simp [mapAssign, mapFind?, hk, ih]

/-- Fixture for the C9 counterexample: a single binding range with an
anonymous leaf variable (a null getBindingRangeLeafVariable) holding one
storage-image descriptor range, reflected at the object root, where the
path accumulator is the empty string. -/
def rFixC9 : BindingRangeDecl :=
  { rangeType := .mutableTexture,
    descriptorRanges := [{ rangeType := .mutableTexture, count := 1, indexOffset := 0 }],
    leafVariableName := none }

/-- The root offset of the C9 fixtures. -/
def offFixC9 : SlangOffset :=
  { bindingSet := 0, binding := 0, pushConstantRange := 0, subelement := 0 }

/-- C9 counterexample: an anonymous binding range at the object root is
not dropped: the reflection walk inserts it into the name-to-Binding
table under the empty-string key, so the table is non-empty and the
empty name resolves to a Binding, contradicting the claim that such a
binding is not inserted. -/
theorem c9_empty_name_inserted_counterexample :
    (processBindingRanges false offFixC9 "" [rFixC9] [emptyBuilder] []).2 =
      [("", { set := 0, binding := 0, offset := 0, size := 0, stride := 0,
              arrayElementCount := 0, type := .storageImage,
              isPushConstant := false, isVariableSize := false })] ∧
    mapFind? (processBindingRanges false offFixC9 "" [rFixC9] [emptyBuilder] []).2 "" ≠
      none := by
  decide

/-- C9 amended: a binding range whose leaf variable is anonymous,
reflected at the object root (empty path), is still recorded: the
binding is inserted into the name-to-Binding table under the
empty-string key (with the accumulated set and slot and the converted
descriptor type), and no log output is produced; it is merely
unaddressable by any ordinary dotted-path name. -/
theorem c9_empty_name_binding_inserted (r : BindingRangeDecl) (dr : DescriptorRange)
    (offset : SlangOffset) (builders : List DescriptorSetLayoutBuilder)
    (bindings : BindingMap) (hr : r.descriptorRanges = [dr])
    (hrt : isSubObjectRangeType r.rangeType = false)
    (hdt : isNonVulkanDescriptorType dr.rangeType = false)
    (hleaf : r.leafVariableName = none) :
    mapFind? (processBindingRanges false offset "" [r] builders bindings).2 "" =
      some { set := offset.bindingSet, binding := offset.binding + dr.indexOffset,
             offset := 0, size := 0, stride := 0, arrayElementCount := 0,
             type := SlangBindingTypeToVulkan dr.rangeType,
             isPushConstant := false, isVariableSize := false } := by
  have hdrop : dropLastChar "" = "" := by decide
  have hgoal : (processBindingRanges false offset "" [r] builders bindings).2 =
      mapAssign bindings ""
        { set := offset.bindingSet, binding := offset.binding + dr.indexOffset,
          offset := 0, size := 0, stride := 0, arrayElementCount := 0,
          type := SlangBindingTypeToVulkan dr.rangeType,
          isPushConstant := false, isVariableSize := false } := by
    unfold processBindingRanges processDescriptorRange
    simp [hrt, hdt, hr, hleaf, hdrop]
  rw [hgoal]
  exact mapFind?_mapAssign_self bindings "" _

/-- Fixture for the C9 witness: one sampled-image descriptor range. -/
def drFixC9w : DescriptorRange := { rangeType := .texture, count := 1, indexOffset := 3 }

/-- Fixture for the C9 witness: an anonymous combined range. -/
def rFixC9w : BindingRangeDecl :=
  { rangeType := .texture, descriptorRanges := [drFixC9w], leafVariableName := none }

theorem c9_empty_name_binding_inserted_witness :
    mapFind? (processBindingRanges false offFixC9 "" [rFixC9w] [emptyBuilder] []).2 "" =
      some { set := 0, binding := 0 + 3, offset := 0, size := 0, stride := 0,
             arrayElementCount := 0, type := .sampledImage,
             isPushConstant := false, isVariableSize := false } :=
  c9_empty_name_binding_inserted rFixC9w drFixC9w offFixC9 [emptyBuilder] [] rfl rfl rfl rfl

/-- The inner struct of the second constant buffer of the C1 failing
input: a struct of 16 bytes holding one 16-byte leaf field at offset
0. -/
def tlFixInner : TypeLayout := .struct 16 (.cons "y" 0 (.leaf 16 false 0) .nil)

/-- The element type of the second constant buffer of the C1 failing
input: a 16-byte struct holding the inner struct as its only field. -/
def tlFixB : TypeLayout := .struct 16 (.cons "inner" 0 tlFixInner .nil)

/-- The element type of the first constant buffer of the C1 failing
input: a flat 16-byte struct with one 16-byte leaf. -/
def tlFixA : TypeLayout := .struct 16 (.cons "x" 0 (.leaf 16 false 0) .nil)

/-- First constant buffer of the C1 failing input, at set 0 slot 0. -/
def cbFix1 : ConstantBufferDecl :=
  { descriptorSetIndex := 0, binding := 0, varPath := "a.", containerOffset := 0,
    element := tlFixA }

/-- Second constant buffer of the C1 failing input, at set 0 slot 1,
with a nested struct inside. -/
def cbFix2 : ConstantBufferDecl :=
  { descriptorSetIndex := 0, binding := 1, varPath := "b.", containerOffset := 0,
    element := tlFixB }

/-- The C1 failing input: a shader layout declaring two constant
buffers, the second of which contains a nested struct. -/
def layoutFixC1 : List ConstantBufferDecl := [cbFix1, cbFix2]

/-- C1 evaluation at the failing input: the layout is a valid
nested-struct layout, the aggregate uniform-buffer size computed for it
is 32 bytes, yet the binding emitted for the nested field b.inner.y is
placed at byte offset 32 with size 16, so its byte range ends at 48 and
does not lie within the aggregate size: ParseStruct adds the running
m_uniformBufferSize again at every recursion level, double-counting it
for nested fields of every constant buffer after the first. -/
theorem c1_parse_struct_range_exceeds_aggregate :
    validReflectedLayout layoutFixC1 = true ∧
    (reflectConstantBuffers layoutFixC1).uniformBufferSize = 32 ∧
    mapFind? (reflectConstantBuffers layoutFixC1).bindings "b.inner.y" =
      some { set := 0, binding := 1, offset := 32, size := 16, stride := 0,
             arrayElementCount := 0, type := .uniformBuffer,
             isPushConstant := false, isVariableSize := false } ∧
    (reflectConstantBuffers layoutFixC1).uniformBufferSize < 32 + 16 := by
  decide

end VulkanFramework
